import Mathlib

/-!
Formal model of the Claude Usage menu-bar application (`claude_usage.py`).

The embedding translates the display-state logic of the source file:
`format_time_until` (the countdown formatter), `ClaudeUsageApp.update_display`
and `ClaudeUsageApp.refresh` (the render/refresh cycle), and
`ClaudeUsageApp.open_settings` together with `save_credentials` (the settings
flow).  Wall-clock time is modelled at seconds granularity as an integer on an
absolute UTC timeline; Python dictionaries holding the parsed JSON response are
modelled by records of optional fields plus an `extra` flag recording whether
the dictionary holds further keys (which is what Python's truthiness test on a
dictionary observes).  Rational numbers stand for the JSON numbers.
-/

namespace ClaudeUsage

/-- Numeric value of a decimal digit character, when it is one. -/
def digitVal (c : Char) : Option Nat :=
  if c.isDigit then some (c.toNat - 48) else none

/-- Two decimal digits read as a number. -/
def twoDigits (a b : Char) : Option Nat :=
  match digitVal a, digitVal b with
  | some x, some y => some (10 * x + y)
  | _, _ => none

/-- Four decimal digits read as a number. -/
def fourDigits (a b c d : Char) : Option Nat :=
  match twoDigits a b, twoDigits c d with
  | some x, some y => some (100 * x + y)
  | _, _ => none

/-- Gregorian leap-year test. -/
def isLeap (y : Nat) : Bool :=
  (y % 4 == 0 && y % 100 != 0) || y % 400 == 0

/-- Number of days in a month of a given year. -/
def daysInMonth (y m : Nat) : Nat :=
  if m = 2 then (if isLeap y then 29 else 28)
  else if m = 4 ∨ m = 6 ∨ m = 9 ∨ m = 11 then 30
  else 31

/-- Days in year `y` that lie strictly before month `m`. -/
def daysBeforeMonth (y m : Nat) : Nat :=
  (List.range (m - 1)).foldl (fun acc i => acc + daysInMonth y (i + 1)) 0

/-- Absolute time in seconds of a civil date-time, measured from
0001-01-01T00:00:00 UTC, shifted by the given UTC offset in seconds. -/
def toEpochSeconds (y mo dy hh mi ss : Nat) (offSecs : Int) : Int :=
  let days : Nat := (y - 1) * 365 + (y - 1) / 4 - (y - 1) / 100 + (y - 1) / 400
      + daysBeforeMonth y mo + (dy - 1)
  ((days * 86400 + hh * 3600 + mi * 60 + ss : Nat) : Int) - offSecs

/-- Modelled from the spec: the timestamp parser used by the source
(`datetime.fromisoformat`, missing from the repository's own code) is modelled
from the spec's words "Parse the timestamp as an absolute point in time
(accepting a 'Z' UTC-zone suffix as equivalent to an explicit zero-offset
designator)".  The model accepts the canonical ISO-8601 form
`YYYY-MM-DD<sep>HH:MM:SS<sign>HH:MM` with `<sep>` either `T` or a space and
`<sign>` either `+` or `-`, returning the absolute time in seconds.  A string
without an explicit UTC offset yields `none`: in the source such a string
parses to a zone-naive value, the aware-naive subtraction then raises, and the
surrounding handler returns "?", so observably it behaves as a parse failure. -/
def fromisoformat (str : String) : Option Int :=
  match str.data with
  | [y1, y2, y3, y4, g1, m1, m2, g2, d1, d2, sep, h1, h2, g3, n1, n2, g4,
     s1, s2, sg, o1, o2, g5, q1, q2] =>
    match fourDigits y1 y2 y3 y4, twoDigits m1 m2, twoDigits d1 d2,
          twoDigits h1 h2, twoDigits n1 n2, twoDigits s1 s2,
          twoDigits o1 o2, twoDigits q1 q2 with
    | some y, some mo, some dy, some hh, some mi, some ss, some oh, some om =>
      if (g1 = '-' ∧ g2 = '-' ∧ (sep = 'T' ∨ sep = ' ') ∧ g3 = ':' ∧ g4 = ':'
            ∧ g5 = ':' ∧ (sg = '+' ∨ sg = '-'))
          ∧ (1 ≤ y ∧ 1 ≤ mo ∧ mo ≤ 12 ∧ 1 ≤ dy ∧ dy ≤ daysInMonth y mo
            ∧ hh ≤ 23 ∧ mi ≤ 59 ∧ ss ≤ 59 ∧ oh ≤ 23 ∧ om ≤ 59)
      then some (toEpochSeconds y mo dy hh mi ss
             ((if sg = '-' then (-1 : Int) else 1) * (oh * 3600 + om * 60)))
      else none
    | _, _, _, _, _, _, _, _ => none
  | _ => none

/-- The expression `reset_time.replace('Z', '+00:00')` from the source: every
occurrence of the character `Z` is replaced by `+00:00`. -/
def replaceZ (str : String) : String :=
  String.mk (str.data.foldr
    (fun c acc =>
      if c = 'Z' then '+' :: '0' :: '0' :: ':' :: '0' :: '0' :: acc
      else c :: acc) [])

/-- The function `format_time_until` of `claude_usage.py`.  `nowSecs` stands
for `datetime.now(timezone.utc)` on the same absolute timeline as the parser's
output; the difference is modelled at seconds granularity, matching
`int(diff.total_seconds())`. -/
def format_time_until (reset_time : String) (nowSecs : Int) : String :=
  match fromisoformat (replaceZ reset_time) with
  | none => "?"
  | some reset_dt =>
    let diff : Int := reset_dt - nowSecs
    if diff ≤ 0 then "now"
    else
      let total : Nat := diff.toNat
      let hours : Nat := total / 3600
      let minutes : Nat := total % 3600 / 60
      if hours > 0 then toString hours ++ "h " ++ toString minutes ++ "m"
      else toString minutes ++ "m"

/-- Round-half-to-even on rationals: the rounding performed by Python's
`f"{x:.0f}"` format specifier on the exact value. -/
def rndHalfEven (x : ℚ) : ℤ :=
  if x - ⌊x⌋ < 1 / 2 then ⌊x⌋
  else if 1 / 2 < x - ⌊x⌋ then ⌊x⌋ + 1
  else if ⌊x⌋ % 2 = 0 then ⌊x⌋ else ⌊x⌋ + 1

/-- The Python format expression `f"{x:.0f}"` on a number `x`: round half to
even, printing a negative value that rounds to zero as `-0`. -/
def fmtPct (x : ℚ) : String :=
  if rndHalfEven x = 0 ∧ x < 0 then "-0" else toString (rndHalfEven x)

/-- One usage window of the parsed JSON response: a dictionary with optional
keys `percent_used` and `resets_at`; `extra` records whether the dictionary
holds any further keys, so that Python's truthiness test is expressible. -/
structure WindowRecord where
  percent_used : Option ℚ
  resets_at : Option String
  extra : Bool
deriving DecidableEq, Repr

/-- Python truthiness of the window dictionary: non-empty. -/
def WindowRecord.truthy (r : WindowRecord) : Bool :=
  r.percent_used.isSome || r.resets_at.isSome || r.extra

/-- The empty dictionary `{}`, the default taken by `usage_data.get(key, {})`. -/
def emptyRecord : WindowRecord :=
  { percent_used := none, resets_at := none, extra := false }

/-- The parsed usage response: a dictionary with the three optional window
keys; `extra` records whether it holds any further keys. -/
structure UsageSnapshot where
  five_hour : Option WindowRecord
  seven_day : Option WindowRecord
  seven_day_sonnet : Option WindowRecord
  extra : Bool
deriving DecidableEq, Repr

/-- Python truthiness of the response dictionary: non-empty. -/
def UsageSnapshot.truthy (d : UsageSnapshot) : Bool :=
  d.five_hour.isSome || d.seven_day.isSome || d.seven_day_sonnet.isSome || d.extra

/-- The `ClaudeAPI` client object: the two credential strings it is built from. -/
structure ClaudeAPI where
  session_key : String
  org_id : String
deriving DecidableEq, Repr

/-- The mutable state of `ClaudeUsageApp` touched by the refresh cycle: the
menu-bar title, the three menu-row titles, the optional client and the cached
snapshot. -/
structure AppState where
  title : String
  sessionRow : String
  weeklyRow : String
  sonnetRow : String
  api : Option ClaudeAPI
  usage_data : Option UsageSnapshot
deriving DecidableEq, Repr

/-- The method `ClaudeUsageApp.update_display`.  Mirrors the source line by
line: the early return on a falsy `usage_data`, the `.get(key, {})` /
`.get(field, default)` extractions, the truthiness-guarded Sonnet fields, and
the three row formats; `now` stands for the current wall-clock time consumed
by `format_time_until`. -/
def update_display (now : Int) (s : AppState) : AppState :=
  match s.usage_data with
  | none => s
  | some data =>
    if data.truthy = false then s
    else
      let fh := data.five_hour.getD emptyRecord
      let session_pct : ℚ := fh.percent_used.getD 0
      let session_reset : String := fh.resets_at.getD ""
      let sd := data.seven_day.getD emptyRecord
      let weekly_pct : ℚ := sd.percent_used.getD 0
      let weekly_reset : String := sd.resets_at.getD ""
      let sonnet_data := data.seven_day_sonnet.getD emptyRecord
      let sonnet_pct : Option ℚ :=
        if sonnet_data.truthy then some (sonnet_data.percent_used.getD 0) else none
      let sonnet_reset : String :=
        if sonnet_data.truthy then sonnet_data.resets_at.getD "" else ""
      let session_time : String :=
        if session_reset ≠ "" then format_time_until session_reset now else "?"
      let weekly_time : String :=
        if weekly_reset ≠ "" then format_time_until weekly_reset now else "?"
      let sonnetRow : String :=
        match sonnet_pct with
        | some p =>
          let sonnet_time : String :=
            if sonnet_reset ≠ "" then format_time_until sonnet_reset now else "?"
          "Sonnet: " ++ fmtPct p ++ "% (resets in " ++ sonnet_time ++ ")"
        | none => "Sonnet: N/A"
      { s with
        title := "Claude: " ++ fmtPct session_pct ++ "%"
        sessionRow := "Session: " ++ fmtPct session_pct ++ "% (resets in "
          ++ session_time ++ ")"
        weeklyRow := "Weekly: " ++ fmtPct weekly_pct ++ "% (resets in "
          ++ weekly_time ++ ")"
        sonnetRow := sonnetRow }

/-- The method `ClaudeUsageApp.refresh`.  `fetchResult` stands for the value
returned by `self.api.get_usage()` when a client is configured: `none` models
the `None` returned on a request failure, and a snapshot that is falsy (an
empty dictionary) falls into the same `if not data` error branch as in the
source. -/
def refresh (fetchResult : Option UsageSnapshot) (now : Int) (s : AppState) :
    AppState :=
  match s.api with
  | none =>
    { s with
      title := "Claude: Setup"
      sessionRow := "Session: Not configured"
      weeklyRow := "Weekly: Not configured"
      sonnetRow := "Sonnet: Not configured" }
  | some _ =>
    match fetchResult with
    | none => { s with title := "Claude: Error" }
    | some data =>
      if data.truthy = false then { s with title := "Claude: Error" }
      else update_display now { s with usage_data := some data }

/-- The credential store: the two optional entries kept under the fixed
service name. -/
structure CredStore where
  session_key : Option String
  org_id : Option String
deriving DecidableEq, Repr

/-- The Python method `str.strip()` with no argument: remove leading and
trailing whitespace. -/
def pyStrip (s : String) : String :=
  String.mk (((s.data.dropWhile Char.isWhitespace).reverse.dropWhile
    Char.isWhitespace).reverse)

/-- The method `ClaudeUsageApp.save_credentials`: writes both keys to the
store and rebuilds the client from the same two strings. -/
def save_credentials (sk oid : String) : CredStore × ClaudeAPI :=
  ({ session_key := some sk, org_id := some oid }, { session_key := sk, org_id := oid })

/-- Outcomes of the three dialogs shown by the settings flow: whether the
instructions alert was accepted, and for each text window whether its OK
button was clicked and what text it held. -/
structure DialogOutcomes where
  instructionsOk : Bool
  sessionClicked : Bool
  sessionText : String
  orgClicked : Bool
  orgText : String
deriving DecidableEq, Repr

/-- How a run of the settings flow ended. -/
inductive SettingsOutcome where
  | openedBrowser
  | cancelled
  | saved
  | rejectedEmpty
deriving DecidableEq, Repr

/-- The observable result of a run of the settings flow: the store and client
afterwards, whether a refresh was triggered, and how the flow ended. -/
structure SettingsResult where
  store : CredStore
  api : Option ClaudeAPI
  refreshTriggered : Bool
  outcome : SettingsOutcome
deriving DecidableEq, Repr

/-- The method `ClaudeUsageApp.open_settings`, as a function of the dialog
outcomes.  Mirrors the source: cancelling the instructions alert opens the
browser and returns; cancelling either text window returns; otherwise both
texts are stripped and, when both are non-empty, `save_credentials` runs and a
refresh is triggered, else an error alert is shown and nothing is saved. -/
def open_settings (store : CredStore) (api : Option ClaudeAPI)
    (d : DialogOutcomes) : SettingsResult :=
  if d.instructionsOk = false then
    { store := store, api := api, refreshTriggered := false
      outcome := SettingsOutcome.openedBrowser }
  else if d.sessionClicked = false then
    { store := store, api := api, refreshTriggered := false
      outcome := SettingsOutcome.cancelled }
  else if d.orgClicked = false then
    { store := store, api := api, refreshTriggered := false
      outcome := SettingsOutcome.cancelled }
  else
    let sk := pyStrip d.sessionText
    let oid := pyStrip d.orgText
    if sk ≠ "" ∧ oid ≠ "" then
      { store := (save_credentials sk oid).1, api := some (save_credentials sk oid).2
        refreshTriggered := true, outcome := SettingsOutcome.saved }
    else
      { store := store, api := api, refreshTriggered := false
        outcome := SettingsOutcome.rejectedEmpty }

/-- Shape of the countdown output once the timestamp has parsed and the reset
lies strictly in the future. -/
theorem format_time_until_parsed_pos (reset_time : String) (nowSecs reset_dt : Int)
    (hp : fromisoformat (replaceZ reset_time) = some reset_dt)
    (hlt : nowSecs < reset_dt) :
    format_time_until reset_time nowSecs =
      if 0 < (reset_dt - nowSecs).toNat / 3600 then
        toString ((reset_dt - nowSecs).toNat / 3600) ++ "h "
          ++ toString ((reset_dt - nowSecs).toNat % 3600 / 60) ++ "m"
      else toString ((reset_dt - nowSecs).toNat % 3600 / 60) ++ "m" := by
  have hns : ¬ reset_dt - nowSecs ≤ 0 := not_le.mpr (sub_pos.mpr hlt)
  simp only [format_time_until, hp, hns, if_false, gt_iff_lt]

/-- C2: the countdown function is total over arbitrary string timestamp input:
for every input that does not parse as an ISO-8601 absolute timestamp it
returns the literal "?".  The function is a total Lean definition, so it is
defined (and raises nothing) on every input; the `try/except` of the source is
the `none` branch here. -/
theorem countdown_unparseable_is_question (reset_time : String) (nowSecs : Int)
    (h : fromisoformat (replaceZ reset_time) = none) :
    format_time_until reset_time nowSecs = "?" := by
  simp only [format_time_until, h]

/-- Witness for C2 at a concrete malformed timestamp. -/
theorem countdown_unparseable_is_question_witness :
    fromisoformat (replaceZ "not a timestamp") = none ∧
    format_time_until "not a timestamp" 0 = "?" :=
  ⟨by decide, countdown_unparseable_is_question "not a timestamp" 0 (by decide)⟩

/-- C3: for every well-formed reset timestamp whose parsed absolute time is at
or before the current time, the countdown function returns "now". -/
theorem countdown_past_reset_is_now (reset_time : String) (nowSecs reset_dt : Int)
    (hp : fromisoformat (replaceZ reset_time) = some reset_dt)
    (hle : reset_dt ≤ nowSecs) :
    format_time_until reset_time nowSecs = "now" := by
  have h0 : reset_dt - nowSecs ≤ 0 := sub_nonpos.mpr hle
  simp only [format_time_until, hp, h0, if_true]

/-- Witness for C3: midnight 2025-01-01 UTC viewed from that very second. -/
theorem countdown_past_reset_is_now_witness :
    fromisoformat (replaceZ "2025-01-01T00:00:00Z") = some 63871286400 ∧
    format_time_until "2025-01-01T00:00:00Z" 63871286400 = "now" :=
  ⟨by decide, countdown_past_reset_is_now "2025-01-01T00:00:00Z" 63871286400
    63871286400 (by decide) (by decide)⟩

/-- C4: for every well-formed reset timestamp strictly after the current time,
the countdown renders "<H>h <M>m" when the difference is at least 60 minutes,
with H the whole-number hours and M the whole-number remaining minutes, and
"<M>m" with the whole-number minutes otherwise. -/
theorem countdown_future_format (reset_time : String) (nowSecs reset_dt : Int)
    (hp : fromisoformat (replaceZ reset_time) = some reset_dt)
    (hlt : nowSecs < reset_dt) :
    (3600 ≤ (reset_dt - nowSecs).toNat →
      format_time_until reset_time nowSecs =
        toString ((reset_dt - nowSecs).toNat / 3600) ++ "h "
          ++ toString ((reset_dt - nowSecs).toNat % 3600 / 60) ++ "m") ∧
    ((reset_dt - nowSecs).toNat < 3600 →
      format_time_until reset_time nowSecs =
        toString ((reset_dt - nowSecs).toNat / 60) ++ "m") := by
  rw [format_time_until_parsed_pos reset_time nowSecs reset_dt hp hlt]
  constructor
  · intro h36
    rw [if_pos (Nat.div_pos h36 (by norm_num))]
  · intro h36
    rw [if_neg (by simp [Nat.div_eq_of_lt h36]), Nat.mod_eq_of_lt h36]

/-- Witness for C4: a reset 2 hours and 5 minutes ahead renders "2h 5m". -/
theorem countdown_future_format_witness :
    format_time_until "2025-01-01T02:05:00+00:00" 63871286400 = "2h 5m" := by
  have h := (countdown_future_format "2025-01-01T02:05:00+00:00" 63871286400
    63871293900 (by decide) (by decide)).1 (by decide)
  rw [h]
  decide

/-- C10: for every well-formed reset timestamp strictly after the current
time, the minutes component of the countdown is at most 59, and the hours form
is only rendered with at least one hour. -/
theorem countdown_minutes_bounded (reset_time : String) (nowSecs reset_dt : Int)
    (hp : fromisoformat (replaceZ reset_time) = some reset_dt)
    (hlt : nowSecs < reset_dt) :
    ∃ hrs mins : Nat, mins ≤ 59 ∧
      ((1 ≤ hrs ∧ format_time_until reset_time nowSecs
          = toString hrs ++ "h " ++ toString mins ++ "m") ∨
       (hrs = 0 ∧ format_time_until reset_time nowSecs = toString mins ++ "m")) := by
  rw [format_time_until_parsed_pos reset_time nowSecs reset_dt hp hlt]
  refine ⟨(reset_dt - nowSecs).toNat / 3600,
    (reset_dt - nowSecs).toNat % 3600 / 60, ?_, ?_⟩
  · have h1 : (reset_dt - nowSecs).toNat % 3600 < 3600 :=
      Nat.mod_lt _ (by norm_num)
    have h2 : (reset_dt - nowSecs).toNat % 3600 / 60 < 60 :=
      Nat.div_lt_of_lt_mul (by omega)
    omega
  · by_cases h : 0 < (reset_dt - nowSecs).toNat / 3600
    · exact Or.inl ⟨h, by rw [if_pos h]⟩
    · exact Or.inr ⟨by omega, by rw [if_neg h]⟩

/-- Witness for C10 at a reset three hours ahead. -/
theorem countdown_minutes_bounded_witness :
    ∃ hrs mins : Nat, mins ≤ 59 ∧
      ((1 ≤ hrs ∧ format_time_until "2025-01-01T03:00:00Z" 63871286400
          = toString hrs ++ "h " ++ toString mins ++ "m") ∨
       (hrs = 0 ∧ format_time_until "2025-01-01T03:00:00Z" 63871286400
          = toString mins ++ "m")) :=
  countdown_minutes_bounded "2025-01-01T03:00:00Z" 63871286400 63871297200
    (by decide) (by decide)

/-- The half-even rounding lands on a nearest integer: it never strays more
than one half from its argument. -/
theorem rndHalfEven_nearest (x : ℚ) : |(rndHalfEven x : ℚ) - x| ≤ 1 / 2 := by
  have h1 := Int.floor_le x
  have h2 := Int.lt_floor_add_one x
  unfold rndHalfEven
  split_ifs with ha hb hc <;> rw [abs_le] <;> push_cast <;>
    constructor <;> linarith

/-- On non-negative arguments the percent formatter prints exactly the
half-even rounding. -/
theorem fmtPct_nonneg (x : ℚ) (hx : 0 ≤ x) :
    fmtPct x = toString (rndHalfEven x) := by
  have hno : ¬ (rndHalfEven x = 0 ∧ x < 0) := by
    rintro ⟨-, hlt⟩
    exact absurd hlt (not_lt.mpr hx)
  unfold fmtPct
  rw [if_neg hno]

/-- C5: for every snapshot whose `five_hour.percent_used` equals `p`, the
menu-bar title after a successful render is "Claude: " followed by `p` rounded
to a nearest whole number and "%".  The rounding is the half-to-even rounding
of Python's `:.0f` format, which always lands on a nearest integer. -/
theorem title_rounds_five_hour_percent (s : AppState) (data : UsageSnapshot)
    (r : WindowRecord) (p : ℚ) (now : Int)
    (h1 : s.usage_data = some data) (h2 : data.five_hour = some r)
    (h3 : r.percent_used = some p) :
    (update_display now s).title = "Claude: " ++ fmtPct p ++ "%" ∧
    |(rndHalfEven p : ℚ) - p| ≤ 1 / 2 ∧
    (0 ≤ p → fmtPct p = toString (rndHalfEven p)) := by
  have htr : data.truthy = true := by
    simp [UsageSnapshot.truthy, h2]
  refine ⟨?_, rndHalfEven_nearest p, fun hp0 => fmtPct_nonneg p hp0⟩
  simp [update_display, h1, htr, h2, h3]

/-- Witness for C5: a five-hour percentage of 73.4 renders as "Claude: 73%". -/
theorem title_rounds_five_hour_percent_witness :
    (update_display 0
      ⟨"Claude: --%", "Session Limit", "Weekly Limit", "Sonnet Limit",
        some ⟨"k", "o"⟩,
        some ⟨some ⟨some (367 / 5), none, false⟩, none, none, false⟩⟩).title
      = "Claude: 73%" := by
  have h := (title_rounds_five_hour_percent
    ⟨"Claude: --%", "Session Limit", "Weekly Limit", "Sonnet Limit",
      some ⟨"k", "o"⟩,
      some ⟨some ⟨some (367 / 5), none, false⟩, none, none, false⟩⟩
    ⟨some ⟨some (367 / 5), none, false⟩, none, none, false⟩
    ⟨some (367 / 5), none, false⟩ (367 / 5) 0 rfl rfl rfl).1
  rw [h]
  norm_num [fmtPct, rndHalfEven]
  rfl

/-- C6: for every refresh cycle with a configured client in which the fetch
fails, the title becomes the "Error" sentinel and the three previously
rendered rows are left unchanged. -/
theorem fetch_failure_sets_error_title_keeps_rows (s : AppState) (c : ClaudeAPI)
    (now : Int) (h : s.api = some c) :
    (refresh none now s).title = "Claude: Error" ∧
    (refresh none now s).sessionRow = s.sessionRow ∧
    (refresh none now s).weeklyRow = s.weeklyRow ∧
    (refresh none now s).sonnetRow = s.sonnetRow := by
  simp [refresh, h]

/-- Witness for C6 at a concrete previously rendered state. -/
theorem fetch_failure_sets_error_title_keeps_rows_witness :
    (refresh none 0
      ⟨"Claude: 5%", "Session: 5% (resets in 1m)", "Weekly: 9% (resets in now)",
        "Sonnet: N/A", some ⟨"k", "o"⟩, none⟩).title = "Claude: Error" ∧
    (refresh none 0
      ⟨"Claude: 5%", "Session: 5% (resets in 1m)", "Weekly: 9% (resets in now)",
        "Sonnet: N/A", some ⟨"k", "o"⟩, none⟩).sessionRow
      = "Session: 5% (resets in 1m)" := by
  have h := fetch_failure_sets_error_title_keeps_rows
    ⟨"Claude: 5%", "Session: 5% (resets in 1m)", "Weekly: 9% (resets in now)",
      "Sonnet: N/A", some ⟨"k", "o"⟩, none⟩ ⟨"k", "o"⟩ 0 rfl
  exact ⟨h.1, h.2.1⟩

/-- C7: for every refresh cycle invoked while no client is configured, the
title becomes the "Setup" sentinel and all three rows show the not-configured
message, regardless of any cached prior snapshot; no fetch is attempted, so
the result does not depend on any fetch outcome. -/
theorem unconfigured_refresh_sets_setup (s : AppState) (now : Int)
    (h : s.api = none) (r1 r2 : Option UsageSnapshot) :
    (refresh r1 now s).title = "Claude: Setup" ∧
    (refresh r1 now s).sessionRow = "Session: Not configured" ∧
    (refresh r1 now s).weeklyRow = "Weekly: Not configured" ∧
    (refresh r1 now s).sonnetRow = "Sonnet: Not configured" ∧
    refresh r1 now s = refresh r2 now s := by
  simp [refresh, h]

/-- Witness for C7 at a concrete state holding a cached snapshot. -/
theorem unconfigured_refresh_sets_setup_witness :
    (refresh (some ⟨none, none, none, true⟩) 0
      ⟨"Claude: 5%", "s", "w", "n", none,
        some ⟨none, none, none, true⟩⟩).title = "Claude: Setup" :=
  (unconfigured_refresh_sets_setup
    ⟨"Claude: 5%", "s", "w", "n", none, some ⟨none, none, none, true⟩⟩ 0 rfl
    (some ⟨none, none, none, true⟩) none).1

/-- C1 counterexample: a snapshot whose `seven_day_sonnet` key is present but
maps to an empty record renders the Sonnet row as "Sonnet: N/A", not in the
mandatory-window format the claim demands for every present record.  The
source's `if sonnet_data` truthiness test cannot tell an empty record from an
absent key. -/
theorem sonnet_empty_record_renders_na :
    (update_display 0
      ⟨"", "", "", "", some ⟨"k", "o"⟩,
        some ⟨none, none, some ⟨none, none, false⟩, false⟩⟩).sonnetRow
      = "Sonnet: N/A" ∧
    "Sonnet: N/A" ≠ "Sonnet: 0% (resets in ?)" := by
  constructor
  · decide
  · decide

/-- C1 (amended): after a successful fetch, if `seven_day_sonnet` is present
with a non-empty record the Sonnet row is rendered identically to the
mandatory windows, with `percent_used` defaulting to 0 and the countdown
defaulting to "?"; if the key is absent or maps to an empty record, the Sonnet
row is exactly "Sonnet: N/A". -/
theorem sonnet_row_rendering (s : AppState) (data : UsageSnapshot) (now : Int)
    (h1 : s.usage_data = some data) :
    (∀ r : WindowRecord, data.seven_day_sonnet = some r → r.truthy = true →
      (update_display now s).sonnetRow =
        "Sonnet: " ++ fmtPct (r.percent_used.getD 0) ++ "% (resets in "
          ++ (if r.resets_at.getD "" ≠ "" then
                format_time_until (r.resets_at.getD "") now
              else "?") ++ ")") ∧
    (data.seven_day_sonnet = none → data.truthy = true →
      (update_display now s).sonnetRow = "Sonnet: N/A") ∧
    (∀ r : WindowRecord, data.seven_day_sonnet = some r → r.truthy = false →
      (update_display now s).sonnetRow = "Sonnet: N/A") := by
  refine ⟨?_, ?_, ?_⟩
  · intro r hr hrt
    have htr : data.truthy = true := by
      simp [UsageSnapshot.truthy, hr]
    simp [update_display, h1, htr, hr, hrt]
  · intro hn htr
    simp [update_display, h1, htr, hn, emptyRecord, WindowRecord.truthy]
  · intro r hr hrf
    have htr : data.truthy = true := by
      simp [UsageSnapshot.truthy, hr]
    simp [update_display, h1, htr, hr, hrf]

/-- Witness for the amended C1: a present, non-empty Sonnet record with
`percent_used` 42 and no reset timestamp renders in the mandatory-window
format. -/
theorem sonnet_row_rendering_witness :
    (update_display 0
      ⟨"", "", "", "", some ⟨"k", "o"⟩,
        some ⟨none, none, some ⟨some 42, none, false⟩, false⟩⟩).sonnetRow
      = "Sonnet: 42% (resets in ?)" := by
  have h := (sonnet_row_rendering
    ⟨"", "", "", "", some ⟨"k", "o"⟩,
      some ⟨none, none, some ⟨some 42, none, false⟩, false⟩⟩
    ⟨none, none, some ⟨some 42, none, false⟩, false⟩ 0 rfl).1
    ⟨some 42, none, false⟩ rfl (by decide)
  rw [h]
  norm_num [fmtPct, rndHalfEven]
  rfl

/-- C8 counterexample: an entirely empty snapshot is a successful fetch whose
`five_hour` key is missing, yet the refresh cycle routes it into the error
branch: the title shows "Claude: Error", not the claimed 0% rendering, and the
rows stay untouched.  The source's `if not data` truthiness test treats the
empty dictionary like a failed fetch. -/
theorem empty_snapshot_shows_error :
    (refresh (some ⟨none, none, none, false⟩) 0
      ⟨"Claude: 1%", "s", "w", "n", some ⟨"k", "o"⟩, none⟩).title
      = "Claude: Error" ∧
    (refresh (some ⟨none, none, none, false⟩) 0
      ⟨"Claude: 1%", "s", "w", "n", some ⟨"k", "o"⟩, none⟩).sessionRow = "s" ∧
    "Claude: Error" ≠ "Claude: 0%" := by
  refine ⟨?_, ?_, ?_⟩ <;> decide

/-- C8 (amended): for every successfully fetched non-empty snapshot, a missing
`five_hour` or `seven_day` key makes the render step use `percent_used` 0 for
that window, and a missing or empty `resets_at` yields the "?" placeholder in
that window's row.  (An entirely empty snapshot is instead routed into the
error branch, as the counterexample shows.) -/
theorem missing_window_defaults (s : AppState) (data : UsageSnapshot)
    (c : ClaudeAPI) (now : Int)
    (hA : s.api = some c) (hT : data.truthy = true) :
    (data.five_hour = none →
      (refresh (some data) now s).title = "Claude: 0%" ∧
      (refresh (some data) now s).sessionRow = "Session: 0% (resets in ?)") ∧
    (data.seven_day = none →
      (refresh (some data) now s).weeklyRow = "Weekly: 0% (resets in ?)") ∧
    (∀ r : WindowRecord, data.five_hour = some r → r.resets_at.getD "" = "" →
      (refresh (some data) now s).sessionRow =
        "Session: " ++ fmtPct (r.percent_used.getD 0) ++ "% (resets in ?)") ∧
    (∀ r : WindowRecord, data.seven_day = some r → r.resets_at.getD "" = "" →
      (refresh (some data) now s).weeklyRow =
        "Weekly: " ++ fmtPct (r.percent_used.getD 0) ++ "% (resets in ?)") := by
  refine ⟨?_, ?_, ?_, ?_⟩
  · intro hf
    constructor
    · simp [refresh, hA, hT, update_display, hf, emptyRecord]
      norm_num [fmtPct, rndHalfEven]
      rfl
    · simp [refresh, hA, hT, update_display, hf, emptyRecord]
      norm_num [fmtPct, rndHalfEven]
      rfl
  · intro hw
    simp [refresh, hA, hT, update_display, hw, emptyRecord]
    norm_num [fmtPct, rndHalfEven]
    rfl
  · intro r hf hre
    simp [refresh, hA, hT, update_display, hf, hre, emptyRecord]
    simp only [String.append_assoc]
    rfl
  · intro r hw hre
    simp [refresh, hA, hT, update_display, hw, hre, emptyRecord]
    simp only [String.append_assoc]
    rfl

/-- Witness for the amended C8: a snapshot holding only a `seven_day` record
renders the five-hour title and row with the 0% default and "?" countdown. -/
theorem missing_window_defaults_witness :
    (refresh (some ⟨none, some ⟨some 10, none, false⟩, none, false⟩) 0
      ⟨"t", "s", "w", "n", some ⟨"k", "o"⟩, none⟩).title = "Claude: 0%" :=
  ((missing_window_defaults
    ⟨"t", "s", "w", "n", some ⟨"k", "o"⟩, none⟩
    ⟨none, some ⟨some 10, none, false⟩, none, false⟩
    ⟨"k", "o"⟩ 0 rfl (by decide)).1 rfl).1

/-- C9: in the settings flow, cancelling at either text prompt leaves the
store and client untouched and triggers no refresh; when both prompts are
submitted, the credentials are written (both keys), the client rebuilt and a
refresh triggered exactly when both stripped fields are non-empty, and
otherwise an error dialog is shown and nothing is saved. -/
theorem settings_flow_credential_mutation (store : CredStore)
    (api : Option ClaudeAPI) (d : DialogOutcomes) :
    (d.instructionsOk = true → d.sessionClicked = false →
      (open_settings store api d).store = store ∧
      (open_settings store api d).api = api ∧
      (open_settings store api d).refreshTriggered = false) ∧
    (d.instructionsOk = true → d.sessionClicked = true → d.orgClicked = false →
      (open_settings store api d).store = store ∧
      (open_settings store api d).api = api ∧
      (open_settings store api d).refreshTriggered = false) ∧
    (d.instructionsOk = true → d.sessionClicked = true → d.orgClicked = true →
      (pyStrip d.sessionText ≠ "" ∧ pyStrip d.orgText ≠ "" →
        (open_settings store api d).store =
          ⟨some (pyStrip d.sessionText), some (pyStrip d.orgText)⟩ ∧
        (open_settings store api d).api =
          some ⟨pyStrip d.sessionText, pyStrip d.orgText⟩ ∧
        (open_settings store api d).refreshTriggered = true ∧
        (open_settings store api d).outcome = SettingsOutcome.saved) ∧
      (¬ (pyStrip d.sessionText ≠ "" ∧ pyStrip d.orgText ≠ "") →
        (open_settings store api d).store = store ∧
        (open_settings store api d).api = api ∧
        (open_settings store api d).refreshTriggered = false ∧
        (open_settings store api d).outcome = SettingsOutcome.rejectedEmpty)) := by
  refine ⟨?_, ?_, ?_⟩
  · intro hi hs
    simp [open_settings, hi, hs]
  · intro hi hs ho
    simp [open_settings, hi, hs, ho]
  · intro hi hs ho
    constructor
    · intro hne
      simp [open_settings, hi, hs, ho, hne, save_credentials]
    · intro hne
      simp [open_settings, hi, hs, ho, hne]

/-- Witness for C9: submitting " key " and "org" saves the stripped pair. -/
theorem settings_flow_credential_mutation_witness :
    (open_settings ⟨none, none⟩ none ⟨true, true, " key ", true, "org"⟩).store
      = ⟨some "key", some "org"⟩ := by
  have h := (((settings_flow_credential_mutation ⟨none, none⟩ none
    ⟨true, true, " key ", true, "org"⟩).2.2 rfl rfl rfl).1 (by decide)).1
  rw [h]
  decide

end ClaudeUsage
